import Mathlib

/-!
Verification development for the AI_DriveThru client-side voice-interaction
orchestrator.  The definitions below are a shallow embedding of the React
frontend sources:

* `SessionContext` provider (`SessionProvider.createSession` / `clearSession`),
* `SpeakerContext` provider (the shared `isAISpeaking` / `isUserSpeaking` flags),
* `OrderContext` provider (`refreshTrigger` / `triggerOrderRefresh`),
* `CarControlComponent` (`handleNewCar` / `handleCarArrived` and the greeting
  `AudioPlayer` wiring),
* `SpeakerIcon` (press-to-talk capture, `processRecording` pipeline,
  response-audio playback, canned-phrase fallback),
* `FloatingMicrophone` (the variant mounted by `MainLayout`/`BottomDrawer`),
* `VoiceRecorder` (`stopRecording`).

The asynchronous structure of the source (event handlers, `await` points,
`setTimeout`) is embedded as a deterministic step function over an explicit
event alphabet: each event is one synchronous segment of JavaScript between
suspension points, exactly as the single-threaded browser event loop runs it.
Pending asynchronous continuations (a `getUserMedia` request, a queued
`onstop`, an in-flight `processAudio` call, a playing audio element, a
scheduled timeout) are counted in the state; the corresponding resolution
event is a no-op when nothing is pending.
-/

namespace DriveThru

/-- The four abstract speaker states of the spec, derived from the flags the
code keeps (`isAISpeaking`, `isUserSpeaking`, the processing flags). -/
inductive SpState where
  | idle
  | customerSpeaking
  | processing
  | aiSpeaking
deriving DecidableEq

/-- The structured response of `apiClient.processAudio` as consumed by the
frontend (`response.success`, `response.response_text`, `response.audio_url`,
`response.order_state_changed`). -/
structure UtteranceResult where
  success : Bool
  response_text : String
  audio_url : Option String
  order_state_changed : Bool
deriving DecidableEq

/-- Outcome of the `processAudio` network call: a resolved response, or a
rejected promise (network error / timeout) carrying the error message. -/
inductive ApiOutcome where
  | ok (r : UtteranceResult)
  | err (msg : String)
deriving DecidableEq

/-- Outcome of `apiClient.createNewSession`: a response with
`response.success = true` carrying `session_id` and the (possibly absent)
`greeting_audio_url`, or a failure (a `response.success = false` response is
turned into a thrown `Error` by `createSession` itself, so it arrives here as
`fail`). -/
inductive CreateOutcome where
  | ok (sid : String) (greet : Option String)
  | fail (msg : String)
deriving DecidableEq

/-- Outcome of `apiClient.clearCurrentSession`: success, or a failure message
(a `response.success = false` response becomes
`fail "Failed to clear session"`, a network error carries its own message). -/
inductive ClearOutcome where
  | ok
  | fail (msg : String)
deriving DecidableEq

/-! ## SessionContext (`SessionProvider`) -/

/-- The state held by `SessionProvider`: `sessionId`, `restaurantId`,
`greetingAudioUrl`, `isLoading`, `error`. -/
structure SessionState where
  sessionId : Option String
  restaurantId : Option Nat
  greetingAudioUrl : Option String
  isLoading : Bool
  error : Option String
deriving DecidableEq

/-- Synchronous prefix of `clearSession`, up to the `await`:
`setIsLoading(true); setError(null)`. -/
def clearSessionStart (s : SessionState) : SessionState :=
  { s with isLoading := true, error := none }

/-- Continuation of `clearSession` once `clearCurrentSession` settles: on
success the three session fields are nulled; on failure the error message is
stored; `finally` resets `isLoading`. -/
def clearSessionResolve (s : SessionState) (o : ClearOutcome) : SessionState :=
  match o with
  | .ok =>
      { s with sessionId := none, restaurantId := none,
               greetingAudioUrl := none, isLoading := false }
  | .fail m =>
      { s with error := some m, isLoading := false }

/-- The whole `clearSession` call, from entry to settlement of the backend
request with outcome `o`. -/
def clearSession (s : SessionState) (o : ClearOutcome) : SessionState :=
  clearSessionResolve (clearSessionStart s) o

/-- Synchronous prefix of `createSession`, up to the `await`:
`setIsLoading(true); setError(null)`. -/
def createSessionStart (s : SessionState) : SessionState :=
  { s with isLoading := true, error := none }

/-- Continuation of `createSession` once `createNewSession` settles with
outcome `o`; `rid` is the `newRestaurantId` argument.  On failure the error is
caught and `null` is returned — nothing is thrown to the caller. -/
def createSessionResolve (s : SessionState) (rid : Nat) (o : CreateOutcome) :
    SessionState :=
  match o with
  | .ok sid greet =>
      { s with sessionId := some sid, restaurantId := some rid,
               greetingAudioUrl := greet, isLoading := false }
  | .fail m =>
      { s with error := some m, isLoading := false }

/-! ## VoiceRecorder -/

/-- The slice of `VoiceRecorder` state read or written by its `stopRecording`:
the `mediaRecorderRef` (present or not), the `isRecording` flag, the timer and
the elapsed time, plus two observation counters: calls to
`MediaRecorder.stop()` and invocations of the `onRecordingStop` callback. -/
structure VRState where
  recorder : Bool
  isRecording : Bool
  recordingTime : Nat
  timerOn : Bool
  stopCalls : Nat
  onStopSignals : Nat
deriving DecidableEq

/-- Model of `VoiceRecorder.stopRecording`: guarded by
`mediaRecorderRef.current && isRecording`; when the guard holds it stops the
recorder, clears `isRecording`, fires `onRecordingStop` and clears the timer;
otherwise it does nothing. -/
def vrStopRecording (s : VRState) : VRState :=
  if s.recorder ∧ s.isRecording then
    { s with stopCalls := s.stopCalls + 1, isRecording := false,
             onStopSignals := s.onStopSignals + 1, timerOn := false }
  else s

/-! ## FloatingMicrophone (the variant mounted in the live layout) -/

/-- State visible to `FloatingMicrophone`: the session identity it reads from
`SessionContext`, the shared speaker flags of the `SpeakerContext` variant
with `isAPIProcessing`, its local recording state, plus pending-continuation
counters and observation counters (`refreshCalls` counts
`orderComponentRef.current.refreshOrder()` invocations, `cannedPlays` counts
`playCannedPhrase` invocations — `FloatingMicrophone` contains no call to it,
`openDevices` counts microphone streams currently open). -/
structure FMState where
  sessionId : Option String
  restaurantId : Option Nat
  hasPermission : Option Bool
  isAISpeaking : Bool
  isUserSpeaking : Bool
  isAPIProcessing : Bool
  isRecording : Bool
  recordingTime : Nat
  timerOn : Bool
  recorder : Bool
  audioUrl : Option String
  responseText : String
  pendingGum : Nat
  pendingOnstop : Nat
  pendingApi : Nat
  refreshCalls : Nat
  cannedPlays : Nat
  openDevices : Nat
deriving DecidableEq

/-- Model of `FloatingMicrophone.startRecording` entry: the guard
`if (!sessionId || !restaurantId || hasPermission === false || isAISpeaking ||
isAPIProcessing) return;` followed by the `await getUserMedia` — so a call
that passes the guard only issues a device request; all further state changes
happen when that request resolves. -/
def fmStartRecording (s : FMState) : FMState :=
  if s.sessionId = none ∨ s.restaurantId = none ∨ s.hasPermission = some false
      ∨ s.isAISpeaking ∨ s.isAPIProcessing then s
  else { s with pendingGum := s.pendingGum + 1 }

/-- Resolution of `getUserMedia` inside `FloatingMicrophone.startRecording`:
the recorder is created and stored in the ref, recording starts, the timer is
started, and `isRecording` / `isUserSpeaking` are set. -/
def fmGumResolved (s : FMState) : FMState :=
  if s.pendingGum = 0 then s
  else
    { s with pendingGum := s.pendingGum - 1, recorder := true,
             openDevices := s.openDevices + 1, isRecording := true,
             isUserSpeaking := true, recordingTime := 0, timerOn := true }

/-- Model of `FloatingMicrophone.stopRecording`: guarded by
`mediaRecorderRef.current && isRecording`; the body only calls
`mediaRecorder.stop()`, which queues the `onstop` event — every other state
change happens inside the `onstop` handler. -/
def fmStopRecording (s : FMState) : FMState :=
  if s.recorder ∧ s.isRecording then
    { s with pendingOnstop := s.pendingOnstop + 1 }
  else s

/-- The synchronous segment of `FloatingMicrophone`'s `mediaRecorder.onstop`
handler: assemble the blob, stop the stream tracks (releasing the device),
clear `isRecording` / `isUserSpeaking`, set `isAPIProcessing`, clear the
timer, then `await apiClient.processAudio(...)` — leaving a pending request. -/
def fmRecorderStopped (s : FMState) : FMState :=
  if s.pendingOnstop = 0 then s
  else
    { s with pendingOnstop := s.pendingOnstop - 1,
             openDevices := s.openDevices - 1, isRecording := false,
             isUserSpeaking := false, isAPIProcessing := true,
             timerOn := false, pendingApi := s.pendingApi + 1 }

/-- Continuation of `FloatingMicrophone.onstop` when `processAudio` settles:
on a successful response the text and audio url are stored, `isAISpeaking` is
set iff an `audio_url` is present, and `refreshOrder` is invoked when
`order_state_changed`; on a `success: false` response only the response text
(or a generic message when it is empty) is stored; on a rejected promise the
generic text `Error processing voice order.` is stored; `finally` resets
`isAPIProcessing`.  No canned phrase is played on any branch. -/
def fmApiDone (s : FMState) (o : ApiOutcome) : FMState :=
  if s.pendingApi = 0 then s
  else
    let s1 := { s with pendingApi := s.pendingApi - 1 }
    match o with
    | .ok r =>
        if r.success then
          let s2 := { s1 with responseText := r.response_text,
                              audioUrl := r.audio_url }
          let s3 :=
            match r.audio_url with
            | some _ => { s2 with isAISpeaking := true }
            | none => { s2 with isAISpeaking := false }
          let s4 :=
            if r.order_state_changed then
              { s3 with refreshCalls := s3.refreshCalls + 1 }
            else s3
          { s4 with isAPIProcessing := false }
        else
          { s1 with
              responseText :=
                (if r.response_text = "" then "Failed to process audio."
                 else r.response_text),
              isAPIProcessing := false }
    | .err _ =>
        { s1 with responseText := "Error processing voice order.",
                  isAPIProcessing := false }

/-- The speaker state `FloatingMicrophone` presents, following the precedence
of its `getStatusColor` / icon rendering: recording, then processing, then AI
speaking, falling back to the shared customer flag. -/
def fmSpeakerStateOf (s : FMState) : SpState :=
  if s.isRecording then .customerSpeaking
  else if s.isAPIProcessing then .processing
  else if s.isAISpeaking then .aiSpeaking
  else if s.isUserSpeaking then .customerSpeaking
  else .idle

/-! ## The drive-thru station
(`SpeakerIcon` + `CarControlComponent` + the shared providers) -/

/-- The combined client state: the `SpeakerContext` flags, the `OrderContext`
counter, the `SessionContext` state, `CarControlComponent`'s local state with
its greeting `AudioPlayer`, and `SpeakerIcon`'s local state, together with
pending-continuation counters for every suspension point and three
observation counters (`openDevices` microphone streams currently open,
`completions` invocations of the response-audio `onended` completion handler,
`cannedStarted` invocations of `playCannedPhrase`). -/
structure AppState where
  -- SpeakerContext (SpeakerProvider)
  isAISpeaking : Bool
  isUserSpeaking : Bool
  -- OrderContext (OrderProvider)
  refreshTrigger : Nat
  -- SessionContext (SessionProvider)
  session : SessionState
  -- CarControlComponent local state
  currentCar : Option Nat
  carProcessing : Bool
  carError : Option String
  shouldPlayGreeting : Bool
  greetingPlaying : Bool
  -- SpeakerIcon props and local state
  iconDisabled : Bool
  hasPermission : Option Bool
  isMouseDown : Bool
  isRecording : Bool
  iconProcessing : Bool
  iconError : Option String
  recordingTime : Nat
  timerOn : Bool
  recorder : Bool
  -- pending asynchronous continuations
  pendingCreate : Nat
  pendingClear : Nat
  pendingGum : Nat
  pendingOnstop : Nat
  pendingApi : Nat
  pendingAudio : Nat
  pendingCanned : Nat
  pendingTimeout : Nat
  -- observation counters
  openDevices : Nat
  completions : Nat
  cannedStarted : Nat
deriving DecidableEq

/-- Model of `SpeakerIcon.handleMouseDown`: returns without doing anything when the
component is disabled, when a previous request is still processing, when
microphone permission is not granted, or while the AI is speaking; otherwise
it sets `isMouseDown` and calls `startRecording`, whose body starts with
`await getUserMedia` — so up to that resolution only a device request is
issued. -/
def handleMouseDown (s : AppState) : AppState :=
  if s.iconDisabled then s
  else if s.iconProcessing then s
  else if s.hasPermission ≠ some true then s
  else if s.isAISpeaking then s
  else { s with isMouseDown := true, pendingGum := s.pendingGum + 1 }

/-- Resolution of `getUserMedia` inside `SpeakerIcon.startRecording`: the
recorder is created and stored in the ref, recording starts, the timer is
started, and `isRecording` / `isUserSpeaking` are set. -/
def gumResolvedIcon (s : AppState) : AppState :=
  if s.pendingGum = 0 then s
  else
    { s with pendingGum := s.pendingGum - 1, recorder := true,
             openDevices := s.openDevices + 1, isRecording := true,
             recordingTime := 0, isUserSpeaking := true, timerOn := true }

/-- Rejection of `getUserMedia` inside `SpeakerIcon.startRecording` (the
`catch` branch): permission is recorded as denied. -/
def gumRejectedIcon (s : AppState) : AppState :=
  if s.pendingGum = 0 then s
  else { s with pendingGum := s.pendingGum - 1, hasPermission := some false }

/-- Model of `SpeakerIcon.stopRecording`: guarded by
`mediaRecorderRef.current && isRecording`; when the guard holds it stops the
recorder (queueing `onstop`), clears `isRecording` and `isUserSpeaking` and
clears the timer; otherwise it does nothing. -/
def stopRecordingIcon (s : AppState) : AppState :=
  if s.recorder ∧ s.isRecording then
    { s with pendingOnstop := s.pendingOnstop + 1, isRecording := false,
             isUserSpeaking := false, timerOn := false }
  else s

/-- Model of `SpeakerIcon.handleMouseUp`: clears `isMouseDown`, then `stopRecording`. -/
def handleMouseUp (s : AppState) : AppState :=
  stopRecordingIcon { s with isMouseDown := false }

/-- Model of `SpeakerIcon.handleMouseLeave`: like mouse-up, but only while the mouse
is held. -/
def handleMouseLeave (s : AppState) : AppState :=
  if s.isMouseDown then stopRecordingIcon { s with isMouseDown := false }
  else s

/-- The synchronous segment of `SpeakerIcon`'s `mediaRecorder.onstop`
handler: assemble the blob and call `processRecording`, whose synchronous
prefix checks the session, sets `isProcessing`, clears the error and issues
the `processAudio` request; back in the handler the stream tracks are stopped,
releasing the device. -/
def recorderStoppedIcon (s : AppState) : AppState :=
  if s.pendingOnstop = 0 then s
  else
    let s1 := { s with pendingOnstop := s.pendingOnstop - 1 }
    let s2 :=
      if s1.session.sessionId = none ∨ s1.session.restaurantId = none then s1
      else { s1 with iconProcessing := true, iconError := none,
                     pendingApi := s1.pendingApi + 1 }
    { s2 with openDevices := s2.openDevices - 1 }

/-- Continuation of `SpeakerIcon.processRecording` when `processAudio`
settles.  On a successful response: if an `audio_url` is present a new audio
element starts playing with an `onended` handler and `isAISpeaking` is set,
otherwise `isAISpeaking` is reset; `triggerOrderRefresh` is called when
`order_state_changed`; `finally` resets `isProcessing`.  A `success: false`
response throws, and the `catch` branch (also taken on a rejected promise)
records the error text and starts the canned `come_again` phrase with
`playCannedPhrase`, suspending until that playback settles — so
`isProcessing` stays set and the rest of the branch runs at that point. -/
def apiDoneIcon (s : AppState) (o : ApiOutcome) : AppState :=
  if s.pendingApi = 0 then s
  else
    let s1 := { s with pendingApi := s.pendingApi - 1 }
    match o with
    | .ok r =>
        if r.success then
          let s2 :=
            match r.audio_url with
            | some _ => { s1 with pendingAudio := s1.pendingAudio + 1,
                                  isAISpeaking := true }
            | none => { s1 with isAISpeaking := false }
          let s3 :=
            if r.order_state_changed then
              { s2 with refreshTrigger := s2.refreshTrigger + 1 }
            else s2
          { s3 with iconProcessing := false }
        else
          { s1 with iconError := some "Failed to process audio",
                    cannedStarted := s1.cannedStarted + 1,
                    pendingCanned := s1.pendingCanned + 1 }
    | .err m =>
        { s1 with iconError := some m,
                  cannedStarted := s1.cannedStarted + 1,
                  pendingCanned := s1.pendingCanned + 1 }

/-- Natural end of the response audio: the installed `onended` handler runs
`setAISpeaking(false)` — the completion signal, counted in `completions`. -/
def audioEndedIcon (s : AppState) : AppState :=
  if s.pendingAudio = 0 then s
  else
    { s with pendingAudio := s.pendingAudio - 1, isAISpeaking := false,
             completions := s.completions + 1 }

/-- Error of the response audio: `SpeakerIcon` installs no `onerror` handler
and does not catch the `audio.play()` rejection, so nothing runs. -/
def audioErroredIcon (s : AppState) : AppState :=
  if s.pendingAudio = 0 then s
  else { s with pendingAudio := s.pendingAudio - 1 }

/-- The canned phrase finished: `playCannedPhrase`'s promise resolves, the
`catch` branch continues with `setAISpeaking(true)` and schedules the 3s
timeout that will reset it, and `finally` resets `isProcessing`. -/
def cannedEndedIcon (s : AppState) : AppState :=
  if s.pendingCanned = 0 then s
  else
    { s with pendingCanned := s.pendingCanned - 1, isAISpeaking := true,
             pendingTimeout := s.pendingTimeout + 1, iconProcessing := false }

/-- The canned phrase failed: `playCannedPhrase`'s promise rejects, the inner
`catch (audioError)` only logs, and `finally` resets `isProcessing`. -/
def cannedErroredIcon (s : AppState) : AppState :=
  if s.pendingCanned = 0 then s
  else { s with pendingCanned := s.pendingCanned - 1, iconProcessing := false }

/-- The 3-second fallback timeout fires: `setAISpeaking(false)`. -/
def fallbackTimeoutIcon (s : AppState) : AppState :=
  if s.pendingTimeout = 0 then s
  else { s with pendingTimeout := s.pendingTimeout - 1, isAISpeaking := false }

/-- A tick of the recording timer interval. -/
def timerTick (s : AppState) : AppState :=
  if s.timerOn then { s with recordingTime := s.recordingTime + 1 } else s

/-- Model of `CarControlComponent.handleNewCar` up to its `await`: sets its local
`isProcessing`, clears its error and enters `createSession`, whose
synchronous prefix sets the session loading flag and clears the session error
before issuing the backend request. -/
def handleNewCar (s : AppState) : AppState :=
  { s with carProcessing := true, carError := none,
           session := createSessionStart s.session,
           pendingCreate := s.pendingCreate + 1 }

/-- The New Car action: the button is rendered only while no car is active
and is disabled while a car-control request is in flight or the AI is
speaking (`disabled={isProcessing || isAISpeaking}`); when invocable it runs
`handleNewCar`. -/
def newCarClicked (s : AppState) : AppState :=
  if s.currentCar = none ∧ ¬s.carProcessing ∧ ¬s.isAISpeaking then
    handleNewCar s
  else s

/-- Continuation of `handleNewCar` when `createNewSession` settles with
outcome `o`: `createSession` stores the session (or the error — it catches
failures and returns `null`, never throwing to `handleNewCar`), then
`handleNewCar` unconditionally sets the car number (`car`, random in the
source) and requests the greeting playback, and `finally` resets its
`isProcessing`.  The restaurant id passed is `restaurant?.id || 1`, fixed to
`1` here (the single-restaurant station configuration). -/
def createResolvedApp (s : AppState) (o : CreateOutcome) (car : Nat) :
    AppState :=
  if s.pendingCreate = 0 then s
  else
    let s1 := { s with pendingCreate := s.pendingCreate - 1,
                       session := createSessionResolve s.session 1 o }
    { s1 with currentCar := some car, shouldPlayGreeting := true,
              carProcessing := false }

/-- Model of `CarControlComponent.handleCarArrived` up to its `await`: guarded by
`if (currentCar)`, sets its local `isProcessing` and enters `clearSession`,
whose synchronous prefix sets the session loading flag and clears the session
error before issuing the backend request. -/
def handleCarArrived (s : AppState) : AppState :=
  { s with carProcessing := true,
           session := clearSessionStart s.session,
           pendingClear := s.pendingClear + 1 }

/-- The Next Customer action: the button is rendered only while a car is
active and is disabled while a car-control request is in flight or the AI is
speaking (`disabled={isProcessing || isAISpeaking}`); when invocable it runs
`handleCarArrived`. -/
def carArrivedClicked (s : AppState) : AppState :=
  if s.currentCar ≠ none ∧ ¬s.carProcessing ∧ ¬s.isAISpeaking then
    handleCarArrived s
  else s

/-- Continuation of `handleCarArrived` when `clearCurrentSession` settles:
`clearSession` applies its outcome (it catches failures internally and never
throws), then `handleCarArrived` clears the car number and the greeting
request, and `finally` resets its `isProcessing`. -/
def clearResolvedApp (s : AppState) (o : ClearOutcome) : AppState :=
  if s.pendingClear = 0 then s
  else
    let s1 := { s with pendingClear := s.pendingClear - 1,
                       session := clearSessionResolve s.session o }
    { s1 with currentCar := none, shouldPlayGreeting := false,
              carProcessing := false }

/-- The greeting `AudioPlayer` fires its `play` event (the element is
rendered with `audioUrl = shouldPlayGreeting ? greetingAudioUrl : null` and
autoplays): `handleAudioPlayStart` sets `isAISpeaking`. -/
def greetingStartedApp (s : AppState) : AppState :=
  if s.shouldPlayGreeting ∧ s.session.greetingAudioUrl ≠ none
      ∧ ¬s.greetingPlaying then
    { s with greetingPlaying := true, isAISpeaking := true }
  else s

/-- The greeting audio ends: `handleAudioPlayEnd` resets `isAISpeaking` and
stops requesting the greeting. -/
def greetingEndedApp (s : AppState) : AppState :=
  if s.greetingPlaying then
    { s with greetingPlaying := false, isAISpeaking := false,
             shouldPlayGreeting := false }
  else s

/-- The greeting audio errors: `handleAudioError` resets `isAISpeaking`,
records the error and stops requesting the greeting. -/
def greetingErroredApp (s : AppState) (m : String) : AppState :=
  if s.greetingPlaying then
    { s with greetingPlaying := false, isAISpeaking := false,
             carError := some ("Audio playback failed: " ++ m),
             shouldPlayGreeting := false }
  else s

/-- The event alphabet of the station: every UI trigger and every resolution
of a suspension point, each one synchronous segment of the event loop. -/
inductive Ev where
  | newCar
  | createResolved (o : CreateOutcome) (car : Nat)
  | carArrived
  | clearResolved (o : ClearOutcome)
  | greetingStarted
  | greetingEnded
  | greetingErrored (m : String)
  | mouseDown
  | mouseUp
  | mouseLeave
  | gumResolved
  | gumRejected
  | timerTick
  | recorderStopped
  | apiDone (o : ApiOutcome)
  | audioEnded
  | audioErrored
  | cannedEnded
  | cannedErrored
  | fallbackTimeout
deriving DecidableEq

/-- One step of the single-threaded event loop. -/
def step (e : Ev) (s : AppState) : AppState :=
  match e with
  | .newCar => newCarClicked s
  | .createResolved o car => createResolvedApp s o car
  | .carArrived => carArrivedClicked s
  | .clearResolved o => clearResolvedApp s o
  | .greetingStarted => greetingStartedApp s
  | .greetingEnded => greetingEndedApp s
  | .greetingErrored m => greetingErroredApp s m
  | .mouseDown => handleMouseDown s
  | .mouseUp => handleMouseUp s
  | .mouseLeave => handleMouseLeave s
  | .gumResolved => gumResolvedIcon s
  | .gumRejected => gumRejectedIcon s
  | .timerTick => timerTick s
  | .recorderStopped => recorderStoppedIcon s
  | .apiDone o => apiDoneIcon s o
  | .audioEnded => audioEndedIcon s
  | .audioErrored => audioErroredIcon s
  | .cannedEnded => cannedEndedIcon s
  | .cannedErrored => cannedErroredIcon s
  | .fallbackTimeout => fallbackTimeoutIcon s

/-- Run a sequence of events. -/
def run (s : AppState) (es : List Ev) : AppState :=
  es.foldl (fun t e => step e t) s

/-- The list of states visited while running a sequence of events, the start
state included. -/
def states (s : AppState) : List Ev → List AppState
  | [] => [s]
  | e :: es => s :: states (step e s) es

/-- The abstract speaker state of the station, following the precedence of
`SpeakerIcon.getSpeakerState`: AI speaking, then processing, then recording /
customer speaking, else idle. -/
def speakerStateOf (s : AppState) : SpState :=
  if s.isAISpeaking then .aiSpeaking
  else if s.iconProcessing then .processing
  else if s.isRecording then .customerSpeaking
  else if s.isUserSpeaking then .customerSpeaking
  else .idle

/-- The freshly mounted station, after the mount-time microphone permission
check has succeeded: no session, no car, all flags clear. -/
def init : AppState :=
  { isAISpeaking := false, isUserSpeaking := false, refreshTrigger := 0,
    session := ⟨none, none, none, false, none⟩,
    currentCar := none, carProcessing := false, carError := none,
    shouldPlayGreeting := false, greetingPlaying := false,
    iconDisabled := false, hasPermission := some true, isMouseDown := false,
    isRecording := false, iconProcessing := false, iconError := none,
    recordingTime := 0, timerOn := false, recorder := false,
    pendingCreate := 0, pendingClear := 0, pendingGum := 0,
    pendingOnstop := 0, pendingApi := 0, pendingAudio := 0,
    pendingCanned := 0, pendingTimeout := 0,
    openDevices := 0, completions := 0, cannedStarted := 0 }

/-- Nulling the three live-session fields of the station state, exactly what a
successful `clearSession` does to `SessionContext`. -/
def clearSessionFieldsApp (s : AppState) : AppState :=
  { s with session := { s.session with
      sessionId := none
      restaurantId := none
      greetingAudioUrl := none } }

/-- A station state with an active car and the customer recording, used to
exercise session clearing mid-capture. -/
def c3start : AppState :=
  { init with
      currentCar := some 7
      isUserSpeaking := true
      isRecording := true
      session := ⟨some "s1", some 1, none, false, none⟩ }

/-- A post-capture station state with a live session and the recorder's
`onstop` event queued. -/
def c6start : AppState :=
  { init with
      pendingOnstop := 1
      session := ⟨some "s1", some 1, none, false, none⟩ }

/-! ## Claims -/

/-- Claim C1, counterexample.  A full interleaving in which `endSession`
(Next Customer) completes after the utterance has been submitted to the
backend and before its callback resolves: the callback is not a no-op — it
still increments the OrderRefreshToken (`refreshTrigger` goes from 0 to 1)
and moves SpeakerState away from Idle (`isAISpeaking` becomes true), even
though the live session is already cleared. -/
theorem c1_stale_callback_counterexample :
    (run init [.newCar, .createResolved (.ok "s1" none) 7, .mouseDown,
        .gumResolved, .mouseUp, .recorderStopped, .carArrived,
        .clearResolved .ok,
        .apiDone (.ok ⟨true, "Added a burger", some "u", true⟩)]).session.sessionId
      = none ∧
    (run init [.newCar, .createResolved (.ok "s1" none) 7, .mouseDown,
        .gumResolved, .mouseUp, .recorderStopped, .carArrived,
        .clearResolved .ok,
        .apiDone (.ok ⟨true, "Added a burger", some "u", true⟩)]).refreshTrigger
      = 1 ∧
    (run init [.newCar, .createResolved (.ok "s1" none) 7, .mouseDown,
        .gumResolved, .mouseUp, .recorderStopped, .carArrived,
        .clearResolved .ok,
        .apiDone (.ok ⟨true, "Added a burger", some "u", true⟩)]).isAISpeaking
      = true := by
  decide

/-- Claim C1, amended.  The pipeline callback performs no session-id check at
all: clearing the live-session fields commutes with the callback, so its
effects on the speaker flags and the OrderRefreshToken are identical whether
or not `endSession` has run in the meantime. -/
theorem c1_callback_ignores_session (s : AppState) (o : ApiOutcome) :
    apiDoneIcon (clearSessionFieldsApp s) o
      = clearSessionFieldsApp (apiDoneIcon s o) := by
  obtain ⟨ai, us, rt, sess, cc, cp, ce, spg, gp, idis, hp, imd, irec, iproc,
    ierr, rtime, ton, rec, pC, pCl, pG, pO, pA, pAu, pCa, pT, od, comp, cst⟩ := s
  obtain ⟨sid, rid, gr, ld, er⟩ := sess
  cases o with
  | ok r =>
    obtain ⟨su, txt, au, oc⟩ := r
    cases su <;> cases au <;> cases oc <;> by_cases h : pA = 0 <;>
      simp [apiDoneIcon, clearSessionFieldsApp, h]
  | err m => by_cases h : pA = 0 <;> simp [apiDoneIcon, clearSessionFieldsApp, h]

/-- Claim C2, counterexample.  A reachable state in which `isUserSpeaking` and
`isAISpeaking` hold simultaneously: the customer releases the press and
immediately presses again; the first utterance's pipeline response resolves
with an `audio_url` during the second recording and sets `isAISpeaking` while
`isUserSpeaking` is still true. -/
theorem c2_mutual_exclusion_counterexample :
    (run init [.newCar, .createResolved (.ok "s1" none) 7, .mouseDown,
        .gumResolved, .mouseUp, .mouseDown, .gumResolved, .recorderStopped,
        .apiDone (.ok ⟨true, "t", some "u", false⟩)]).isUserSpeaking = true ∧
    (run init [.newCar, .createResolved (.ok "s1" none) 7, .mouseDown,
        .gumResolved, .mouseUp, .mouseDown, .gumResolved, .recorderStopped,
        .apiDone (.ok ⟨true, "t", some "u", false⟩)]).isAISpeaking = true := by
  decide

/-- Claim C2, amended.  Mutual exclusion is enforced in one direction only:
a press while the AI is speaking is refused outright (`handleMouseDown` is a
no-op whenever `isAISpeaking` is set), so capture is never initiated from an
AISpeaking state; nothing prevents a pending pipeline response from setting
AISpeaking during an active recording. -/
theorem c2_press_refused_while_ai_speaking (s : AppState)
    (h : s.isAISpeaking = true) : handleMouseDown s = s := by
  simp [handleMouseDown, h]

/-- Claim C2, witness for the amended theorem. -/
theorem c2_press_refused_while_ai_speaking_witness :
    handleMouseDown { init with isAISpeaking := true }
      = { init with isAISpeaking := true } :=
  c2_press_refused_while_ai_speaking { init with isAISpeaking := true } rfl

/-- Claim C3, counterexample.  `endSession` run to completion (Next Customer
pressed while the customer is recording, backend clear succeeds) leaves
SpeakerState at CustomerSpeaking, not Idle: `clearSession` never touches the
speaker flags and nothing aborts the in-flight recording. -/
theorem c3_end_session_counterexample :
    (run init [.newCar, .createResolved (.ok "s1" none) 7, .mouseDown,
        .gumResolved, .carArrived, .clearResolved .ok]).session.sessionId
      = none ∧
    (run init [.newCar, .createResolved (.ok "s1" none) 7, .mouseDown,
        .gumResolved, .carArrived, .clearResolved .ok]).isUserSpeaking
      = true ∧
    speakerStateOf (run init [.newCar, .createResolved (.ok "s1" none) 7,
        .mouseDown, .gumResolved, .carArrived, .clearResolved .ok])
      ≠ SpState.idle := by
  decide

/-- Claim C3, amended.  A completed `endSession` (Next Customer, backend
clear succeeds) clears the live Session — session id, restaurant id, greeting
payload and the car — and notifies the backend, but it does not force
SpeakerState to Idle first: every speaker-related flag is left exactly as it
was. -/
theorem c3_end_session_clears_session_only (s : AppState)
    (h1 : s.currentCar ≠ none) (h2 : s.carProcessing = false)
    (h3 : s.isAISpeaking = false) :
    (run s [.carArrived, .clearResolved .ok]).session.sessionId = none ∧
    (run s [.carArrived, .clearResolved .ok]).session.restaurantId = none ∧
    (run s [.carArrived, .clearResolved .ok]).session.greetingAudioUrl = none ∧
    (run s [.carArrived, .clearResolved .ok]).currentCar = none ∧
    (run s [.carArrived, .clearResolved .ok]).isAISpeaking = s.isAISpeaking ∧
    (run s [.carArrived, .clearResolved .ok]).isUserSpeaking = s.isUserSpeaking ∧
    (run s [.carArrived, .clearResolved .ok]).isRecording = s.isRecording ∧
    (run s [.carArrived, .clearResolved .ok]).iconProcessing = s.iconProcessing := by
  simp [run, step, carArrivedClicked, handleCarArrived, clearResolvedApp,
        clearSessionStart, clearSessionResolve, h1, h2, h3]

/-- Claim C3, witness for the amended theorem: ending the session while the
customer is recording. -/
theorem c3_end_session_clears_session_only_witness :
    (run c3start [.carArrived, .clearResolved .ok]).session.sessionId = none ∧
    (run c3start [.carArrived, .clearResolved .ok]).session.restaurantId = none ∧
    (run c3start [.carArrived, .clearResolved .ok]).session.greetingAudioUrl
      = none ∧
    (run c3start [.carArrived, .clearResolved .ok]).currentCar = none ∧
    (run c3start [.carArrived, .clearResolved .ok]).isAISpeaking
      = c3start.isAISpeaking ∧
    (run c3start [.carArrived, .clearResolved .ok]).isUserSpeaking
      = c3start.isUserSpeaking ∧
    (run c3start [.carArrived, .clearResolved .ok]).isRecording
      = c3start.isRecording ∧
    (run c3start [.carArrived, .clearResolved .ok]).iconProcessing
      = c3start.iconProcessing :=
  c3_end_session_clears_session_only c3start (by decide) rfl rfl

/-- Claim C4, counterexample.  A playback error on the response audio invokes
the completion signal zero times, not exactly once: `SpeakerIcon` installs no
`onerror` handler and does not catch the `audio.play()` rejection, so
`isAISpeaking` remains true forever and the `completions` counter stays 0. -/
theorem c4_completion_counterexample :
    (run init [.newCar, .createResolved (.ok "s1" none) 7, .mouseDown,
        .gumResolved, .mouseUp, .recorderStopped,
        .apiDone (.ok ⟨true, "t", some "u", false⟩), .audioErrored]).completions
      = 0 ∧
    (run init [.newCar, .createResolved (.ok "s1" none) 7, .mouseDown,
        .gumResolved, .mouseUp, .recorderStopped,
        .apiDone (.ok ⟨true, "t", some "u", false⟩), .audioErrored]).isAISpeaking
      = true := by
  decide

/-- Claim C4, amended.  The response-audio playback signals completion
exactly once on natural end (the `onended` handler fires once and returns the
AI-speaking flag to false), but on a playback error no completion signal fires
at all and the AI-speaking flag remains true. -/
theorem c4_completion_on_natural_end (s : AppState) (r : UtteranceResult)
    (u : String) (hA : s.pendingApi ≠ 0) (hAu : s.pendingAudio = 0)
    (hs : r.success = true) (hurl : r.audio_url = some u) :
    (run s [.apiDone (.ok r), .audioEnded]).completions = s.completions + 1 ∧
    (run s [.apiDone (.ok r), .audioEnded]).isAISpeaking = false ∧
    (run s [.apiDone (.ok r), .audioErrored]).completions = s.completions ∧
    (run s [.apiDone (.ok r), .audioErrored]).isAISpeaking = true := by
  obtain ⟨su, txt, au, oc⟩ := r
  simp only at hs hurl
  subst hs hurl
  cases oc <;>
    simp [run, step, apiDoneIcon, audioEndedIcon, audioErroredIcon, hA, hAu]

/-- Claim C4, witness for the amended theorem. -/
theorem c4_completion_on_natural_end_witness :
    (run { init with pendingApi := 1 }
        [.apiDone (.ok ⟨true, "t", some "u", false⟩), .audioEnded]).completions
      = ({ init with pendingApi := 1 } : AppState).completions + 1 ∧
    (run { init with pendingApi := 1 }
        [.apiDone (.ok ⟨true, "t", some "u", false⟩), .audioEnded]).isAISpeaking
      = false ∧
    (run { init with pendingApi := 1 }
        [.apiDone (.ok ⟨true, "t", some "u", false⟩), .audioErrored]).completions
      = ({ init with pendingApi := 1 } : AppState).completions ∧
    (run { init with pendingApi := 1 }
        [.apiDone (.ok ⟨true, "t", some "u", false⟩), .audioErrored]).isAISpeaking
      = true :=
  c4_completion_on_natural_end { init with pendingApi := 1 }
    ⟨true, "t", some "u", false⟩ "u" (by decide) rfl rfl rfl

/-- Claim C5, evaluation at the failing input.  The live pipeline
(`FloatingMicrophone`, from a recording with a live session) on a rejected
`processAudio` call: it plays no canned phrase (`cannedPlays` stays 0),
stores the text `Error processing voice order.`, performs no order refresh,
and ends at Idle — the spoken-fallback half of the claim is what the code
fails to do (the repository's own bug log tracks this as BUG-008,
"Error Messages Exposed to Customers", still open). -/
theorem c5_floating_mic_failure_run :
    (fmApiDone (fmRecorderStopped (fmStopRecording
        ⟨some "s1", some 1, some true, false, true, false, true, 3, true,
         true, none, "", 0, 0, 0, 0, 0, 1⟩)) (.err "Network Error")).cannedPlays
      = 0 ∧
    (fmApiDone (fmRecorderStopped (fmStopRecording
        ⟨some "s1", some 1, some true, false, true, false, true, 3, true,
         true, none, "", 0, 0, 0, 0, 0, 1⟩)) (.err "Network Error")).responseText
      = "Error processing voice order." ∧
    (fmApiDone (fmRecorderStopped (fmStopRecording
        ⟨some "s1", some 1, some true, false, true, false, true, 3, true,
         true, none, "", 0, 0, 0, 0, 0, 1⟩)) (.err "Network Error")).refreshCalls
      = 0 ∧
    fmSpeakerStateOf (fmApiDone (fmRecorderStopped (fmStopRecording
        ⟨some "s1", some 1, some true, false, true, false, true, 3, true,
         true, none, "", 0, 0, 0, 0, 0, 1⟩)) (.err "Network Error"))
      = SpState.idle := by
  decide

/-- Claim C6.  For every post-capture state with a live session, a successful
`processUtterance` response with `audio_url` set and `order_state_changed`
true drives the derived SpeakerState through exactly
Idle → Processing → AISpeaking → Idle, and the OrderRefreshToken is
incremented exactly once, by exactly 1. -/
theorem c6_success_scenario (s : AppState) (r : UtteranceResult)
    (sid u : String) (rid : Nat)
    (h1 : s.pendingOnstop ≠ 0) (h2 : s.session.sessionId = some sid)
    (h3 : s.session.restaurantId = some rid)
    (h4 : s.isAISpeaking = false) (h5 : s.isUserSpeaking = false)
    (h6 : s.isRecording = false) (h7 : s.iconProcessing = false)
    (h8 : r.success = true) (h9 : r.audio_url = some u)
    (h10 : r.order_state_changed = true) :
    (states s [.recorderStopped, .apiDone (.ok r), .audioEnded]).map
        speakerStateOf
      = [SpState.idle, SpState.processing, SpState.aiSpeaking, SpState.idle] ∧
    (run s [.recorderStopped, .apiDone (.ok r), .audioEnded]).refreshTrigger
      = s.refreshTrigger + 1 := by
  simp [run, states, step, recorderStoppedIcon, apiDoneIcon, audioEndedIcon,
        speakerStateOf, h1, h2, h3, h4, h5, h6, h7, h8, h9, h10]

/-- Claim C6, witness. -/
theorem c6_success_scenario_witness :
    (states c6start
        [.recorderStopped, .apiDone (.ok ⟨true, "Added a burger", some "u", true⟩),
         .audioEnded]).map speakerStateOf
      = [SpState.idle, SpState.processing, SpState.aiSpeaking, SpState.idle] ∧
    (run c6start
        [.recorderStopped, .apiDone (.ok ⟨true, "Added a burger", some "u", true⟩),
         .audioEnded]).refreshTrigger
      = c6start.refreshTrigger + 1 :=
  c6_success_scenario c6start ⟨true, "Added a burger", some "u", true⟩ "s1" "u" 1
    (by decide) rfl rfl rfl rfl rfl rfl rfl rfl rfl

/-- Claim C7, counterexample.  A second press while already recording
(SpeakerState is CustomerSpeaking) is not refused: `handleMouseDown` checks
neither `isRecording` nor `isUserSpeaking`, so the call proceeds and a second
audio input device is opened (`openDevices` reaches 2). -/
theorem c7_double_press_counterexample :
    speakerStateOf (run init [.newCar, .createResolved (.ok "s1" none) 7,
        .mouseDown, .gumResolved]) = SpState.customerSpeaking ∧
    handleMouseDown (run init [.newCar, .createResolved (.ok "s1" none) 7,
        .mouseDown, .gumResolved])
      ≠ run init [.newCar, .createResolved (.ok "s1" none) 7,
        .mouseDown, .gumResolved] ∧
    (run init [.newCar, .createResolved (.ok "s1" none) 7, .mouseDown,
        .gumResolved, .mouseDown, .gumResolved]).openDevices = 2 := by
  decide

/-- Claim C7, amended.  The capture entry guard refuses — returning with no
state change at all — a call made without a live session, without microphone
permission, while the AI is speaking or while the pipeline is processing; it
performs no check of the recording state itself, so a call while already
CustomerSpeaking proceeds and opens a second device. -/
theorem c7_begin_guard_refusals (s : FMState)
    (h : s.sessionId = none ∨ s.restaurantId = none
         ∨ s.hasPermission = some false ∨ s.isAISpeaking = true
         ∨ s.isAPIProcessing = true) :
    fmStartRecording s = s := by
  unfold fmStartRecording
  rcases h with h | h | h | h | h <;> simp [h]

/-- Claim C7, witness for the amended theorem: a press while the AI is
speaking. -/
theorem c7_begin_guard_refusals_witness :
    fmStartRecording ⟨some "s1", some 1, some true, true, false, false, false,
        0, false, false, none, "", 0, 0, 0, 0, 0, 0⟩
      = ⟨some "s1", some 1, some true, true, false, false, false,
        0, false, false, none, "", 0, 0, 0, 0, 0, 0⟩ :=
  c7_begin_guard_refusals _ (by decide)

/-- Claim C8, counterexample.  A session is created while the customer is
speaking: Next Customer is pressed mid-recording (nothing disables it for
CustomerSpeaking), which clears the car and the session while the recording
continues; New Car is then available and enabled — its guard checks only the
AI-speaking flag and its own in-flight flag — and a new session is created
with `isUserSpeaking` still true. -/
theorem c8_new_car_while_speaking_counterexample :
    (run init [.newCar, .createResolved (.ok "s1" none) 7, .mouseDown,
        .gumResolved, .carArrived, .clearResolved .ok, .newCar,
        .createResolved (.ok "s2" none) 8]).session.sessionId = some "s2" ∧
    (run init [.newCar, .createResolved (.ok "s1" none) 7, .mouseDown,
        .gumResolved, .carArrived, .clearResolved .ok, .newCar,
        .createResolved (.ok "s2" none) 8]).isUserSpeaking = true ∧
    speakerStateOf (run init [.newCar, .createResolved (.ok "s1" none) 7,
        .mouseDown, .gumResolved, .carArrived, .clearResolved .ok, .newCar,
        .createResolved (.ok "s2" none) 8]) = SpState.customerSpeaking := by
  decide

/-- Claim C8, amended.  The New Car action is refused — a strict no-op —
while the AI is speaking, while a car-control request is in flight, or while
a car is already active; it checks neither CustomerSpeaking nor the
pipeline's Processing state, so those states do not prevent session
creation. -/
theorem c8_new_car_refusals (s : AppState)
    (h : s.isAISpeaking = true ∨ s.carProcessing = true
         ∨ s.currentCar ≠ none) :
    newCarClicked s = s := by
  unfold newCarClicked
  rcases h with h | h | h <;> simp [h]

/-- Claim C8, witness for the amended theorem: New Car while the AI is
speaking. -/
theorem c8_new_car_refusals_witness :
    newCarClicked { init with isAISpeaking := true }
      = { init with isAISpeaking := true } :=
  c8_new_car_refusals { init with isAISpeaking := true } (Or.inl rfl)

/-- Claim C9, counterexample.  Calling `endSession` with no live session is
not a no-op: the call still resets the error field (and invokes the backend),
so from a session-less state carrying a prior error the observable state
changes. -/
theorem c9_clear_session_not_noop_counterexample :
    clearSession ⟨none, none, none, false, some "Failed to create session"⟩
        ClearOutcome.ok
      ≠ ⟨none, none, none, false, some "Failed to create session"⟩ := by
  decide

/-- Claim C9, amended.  `endSession` is idempotent: a second call with the
same backend outcome is absorbed — calling twice in a row produces exactly
the observable state of calling once; a call with no live session, however,
still invokes the backend and resets the error and loading fields, so it is
not a strict no-op. -/
theorem c9_clear_session_idempotent (st : SessionState) (o : ClearOutcome) :
    clearSession (clearSession st o) o = clearSession st o := by
  cases st; cases o <;> rfl

/-- Claim C10.  Each of the three `stopRecording` implementations
(`SpeakerIcon`, `FloatingMicrophone`, `VoiceRecorder`) is a strict no-op when
the `MediaRecorder` ref is absent or the recording flag is false: no
`MediaRecorder.stop` call, and every piece of recording, speaker and timer
state is left unchanged. -/
theorem c10_stop_recording_noop :
    (∀ s : AppState, s.recorder = false ∨ s.isRecording = false →
      stopRecordingIcon s = s) ∧
    (∀ s : FMState, s.recorder = false ∨ s.isRecording = false →
      fmStopRecording s = s) ∧
    (∀ s : VRState, s.recorder = false ∨ s.isRecording = false →
      vrStopRecording s = s) := by
  refine ⟨?_, ?_, ?_⟩ <;> intro s h <;>
    [unfold stopRecordingIcon; unfold fmStopRecording; unfold vrStopRecording] <;>
    rcases h with h | h <;> simp [h]

/-- Claim C10, witness. -/
theorem c10_stop_recording_noop_witness :
    stopRecordingIcon init = init ∧
    fmStopRecording ⟨none, none, none, false, false, false, false, 0, false,
        false, none, "", 0, 0, 0, 0, 0, 0⟩
      = ⟨none, none, none, false, false, false, false, 0, false, false, none,
        "", 0, 0, 0, 0, 0, 0⟩ ∧
    vrStopRecording ⟨false, false, 0, false, 0, 0⟩
      = ⟨false, false, 0, false, 0, 0⟩ :=
  ⟨c10_stop_recording_noop.1 init (Or.inl rfl),
   c10_stop_recording_noop.2.1 _ (Or.inl rfl),
   c10_stop_recording_noop.2.2 _ (Or.inl rfl)⟩

end DriveThru
